import Mathlib

/-!
Shallow embedding of the learner progress and unlock state machine of the
Learnova e-learning portal, together with theorems settling the frozen claims
about it.  Numbers that are JavaScript floats in the source are modelled as
rationals; statuses are modelled as inductive types.  Duration strings and
wall-clock timestamp fields (timeSpent, lastAccessedAt, lastPracticeDate,
savedAt) are elided from the state records: no claim concerns them and they
never feed back into the numeric logic modelled here.
-/

namespace Learnova

/-- Indexed map starting from a given index: the building block for the
JavaScript `array.map((x, idx) => ...)` pattern used throughout the pages. -/
def mapWithIdxFrom (f : Nat → α → β) : Nat → List α → List β
  | _, [] => []
  | n, a :: as => f n a :: mapWithIdxFrom f (n + 1) as

/-- JavaScript `array.map((x, idx) => ...)`. -/
def mapWithIdx (f : Nat → α → β) (l : List α) : List β :=
  mapWithIdxFrom f 0 l

theorem length_mapWithIdxFrom (f : Nat → α → β) (n : Nat) (l : List α) :
    (mapWithIdxFrom f n l).length = l.length := by
  induction l generalizing n with
  | nil => rfl
  | cons a as ih => simp [mapWithIdxFrom, ih]

theorem length_mapWithIdx (f : Nat → α → β) (l : List α) :
    (mapWithIdx f l).length = l.length :=
  length_mapWithIdxFrom f 0 l

theorem getElem?_mapWithIdxFrom (f : Nat → α → β) (n i : Nat) (l : List α) :
    (mapWithIdxFrom f n l)[i]? = (l[i]?).map (f (n + i)) := by
  induction l generalizing n i with
  | nil => simp [mapWithIdxFrom]
  | cons a as ih =>
    cases i with
    | zero => simp [mapWithIdxFrom]
    | succ j =>
      have h := ih (n + 1) j
      rw [mapWithIdxFrom]
      simp only [List.getElem?_cons_succ, h, Nat.add_succ, Nat.succ_add]

theorem getElem?_mapWithIdx (f : Nat → α → β) (i : Nat) (l : List α) :
    (mapWithIdx f l)[i]? = (l[i]?).map (f i) := by
  simpa using getElem?_mapWithIdxFrom f 0 i l

/-- Status values shared by modules and lessons in the source:
locked | not_started | in_progress | completed. -/
inductive MStatus
  | locked
  | notStarted
  | inProgress
  | completed
deriving DecidableEq, Repr

/-- Quiz status values in the source: locked | not_started | passed | failed. -/
inductive QStatus
  | locked
  | notStarted
  | passed
  | failed
deriving DecidableEq, Repr

/-- A lesson as the pages hold it (content fields other than the id elided). -/
structure Lesson where
  id : String
  status : MStatus
  progress : ℚ
  lastPosition : ℚ
deriving DecidableEq, Repr

/-- A module quiz as the pages hold it. -/
structure Quiz where
  id : String
  status : QStatus
  bestScore : ℚ
  passingScore : ℚ
deriving DecidableEq, Repr

/-- A module as the pages hold it. -/
structure Module where
  id : String
  status : MStatus
  progress : ℚ
  lessons : List Lesson
  quiz : Quiz
deriving DecidableEq, Repr

/-- JavaScript `a || b` on two numbers: 0 is falsy, every other number truthy. -/
def jsOr (a b : ℚ) : ℚ :=
  if a = 0 then b else a

/-- JavaScript `x?.f || b` where the chain may produce undefined. -/
def jsOrOpt (a : Option ℚ) (b : ℚ) : ℚ :=
  match a with
  | none => b
  | some v => jsOr v b

/-- JavaScript Math.round: floor of x + 1/2 (halves round toward plus infinity). -/
def jround (x : ℚ) : ℤ :=
  ⌊x + 1/2⌋

/-- Math.round kept inside the rational number line, as JS keeps it a number. -/
def jroundQ (x : ℚ) : ℚ :=
  ((jround x : ℤ) : ℚ)

/-! ## SnapshotReconciler: loadCourse in the R2-only page

Source: src/unnamed/part_001, lines 176-226.  When a saved snapshot exists and
its module count matches the freshly loaded module count, each saved module is
merged onto the fresh one; otherwise the fresh-start state is built. -/

/-- One merged lesson of the loadCourse merge branch.  The saved lesson at the
same index supplies status, progress and lastPosition through the JS `||`
operator, falling back to the fresh lesson field when the saved lesson is
missing or the saved numeric field is 0.  Status values are non-empty strings
in the source, hence always truthy when the saved lesson exists. -/
def mergeLesson (savedLessons : List Lesson) (lessonIdx : Nat) (lesson : Lesson) : Lesson :=
  { lesson with
    status := (savedLessons[lessonIdx]?.map Lesson.status).getD lesson.status
    progress := jsOrOpt (savedLessons[lessonIdx]?.map Lesson.progress) lesson.progress
    lastPosition :=
      jsOrOpt (savedLessons[lessonIdx]?.map Lesson.lastPosition) lesson.lastPosition }

/-- One merged module of the loadCourse merge branch: saved status and progress
are copied wholesale, lessons are merged index-wise, and the quiz keeps fresh
content while status and bestScore come from the saved quiz through `||`. -/
def mergeModule (savedMod freshMod : Module) : Module :=
  { freshMod with
    status := savedMod.status
    progress := savedMod.progress
    lessons := mapWithIdx (fun lessonIdx lesson =>
      mergeLesson savedMod.lessons lessonIdx lesson) freshMod.lessons
    quiz := { freshMod.quiz with
      status := savedMod.quiz.status
      bestScore := jsOr savedMod.quiz.bestScore freshMod.quiz.bestScore } }

/-- The fresh-start branch of loadCourse: module 0 is in_progress with all its
lessons not_started, every other module is locked with all lessons locked, and
every quiz is locked. -/
def freshStartModules (mods : List Module) : List Module :=
  mapWithIdx (fun idx m =>
    { m with
      status := if idx = 0 then MStatus.inProgress else MStatus.locked
      lessons := m.lessons.map (fun lesson =>
        { lesson with status := if idx = 0 then MStatus.notStarted else MStatus.locked })
      quiz := { m.quiz with status := QStatus.locked } }) mods

/-- The module part of loadCourse: merge the saved snapshot when it exists and
its module count equals the fresh module count, else start fresh. -/
def loadCourseModules (savedModules : Option (List Module)) (fresh : List Module) :
    List Module :=
  match savedModules with
  | some savedMods =>
    if savedMods.length = fresh.length then
      mapWithIdx (fun idx freshMod =>
        match savedMods[idx]? with
        | some savedMod => mergeModule savedMod freshMod
        | none => freshMod) fresh
    else
      freshStartModules fresh
  | none => freshStartModules fresh

/-! ## handleLessonComplete in the R2-only page

Source: src/unnamed/part_001, lines 274-348.  Phase one rewrites the module
containing the completed lesson; phase two unlocks the module after the one
that contains the completed lesson once that module has reached 70 percent. -/

/-- Phase one of handleLessonComplete for a single module: if the lesson is not
in this module the module is unchanged; otherwise the lesson becomes completed
at 100 percent, the lesson right after it is unlocked if it was locked, the
module progress becomes the rounded percentage of completed lessons, the module
status becomes completed or in_progress, and the quiz unlocks once every lesson
is completed. -/
def completeLessonInModule (lessonId : String) (m : Module) : Module :=
  match m.lessons.findIdx? (fun l => l.id == lessonId) with
  | none => m
  | some lessonIdx =>
    let updatedLessons := mapWithIdx (fun idx lesson =>
      if lesson.id = lessonId then
        { lesson with status := MStatus.completed, progress := 100 }
      else if idx = lessonIdx + 1 ∧ lesson.status = MStatus.locked then
        { lesson with status := MStatus.notStarted }
      else lesson) m.lessons
    let completedLessons := (updatedLessons.filter (fun l => l.status = MStatus.completed)).length
    let moduleProgress := jroundQ ((completedLessons : ℚ) / (updatedLessons.length : ℚ) * 100)
    let allLessonsCompleted := completedLessons = updatedLessons.length
    let newQuiz :=
      if allLessonsCompleted ∧ m.quiz.status = QStatus.locked then
        { m.quiz with status := QStatus.notStarted }
      else m.quiz
    { m with
      lessons := updatedLessons
      progress := moduleProgress
      status := if allLessonsCompleted then MStatus.completed else MStatus.inProgress
      quiz := newQuiz }

/-- Phase two of handleLessonComplete (src/unnamed/part_001, lines 314-331):
a locked module whose predecessor contains the completed lesson and has
progress at least 70 becomes not_started, with every one of its lessons set to
not_started. -/
def unlockNextAfterLesson (lessonId : String) (updatedModules : List Module) :
    List Module :=
  mapWithIdx (fun index m =>
    match index with
    | 0 => m
    | i + 1 =>
      match updatedModules[i]? with
      | none => m
      | some prevModule =>
        if prevModule.lessons.any (fun l => l.id == lessonId) ∧
            70 ≤ prevModule.progress ∧ m.status = MStatus.locked then
          { m with
            status := MStatus.notStarted
            lessons := m.lessons.map (fun l => { l with status := MStatus.notStarted }) }
        else m) updatedModules

/-- The module-state part of handleLessonComplete: phase one on every module,
then the unlock pass over the result. -/
def handleLessonComplete (lessonId : String) (modules : List Module) : List Module :=
  unlockNextAfterLesson lessonId (modules.map (completeLessonInModule lessonId))

/-! ## handleVideoProgress

R2-only page source: src/unnamed/part_001, lines 364-416.  Branded page
source: src/src/app/[slug]/page.tsx, lines 296-307 and 1156-1167 (two
identical copies). -/

/-- The R2-only handleVideoProgress module transform: the matching lesson takes
the max of its progress and the reported percent, the max of its last position
(undefined read as 0) and the reported position, and moves from not_started to
in_progress; each module holding the lesson recomputes its progress as the
rounded mean of its lessons progress. -/
def videoProgressModules (lessonId : String) (progressPercent position : ℚ)
    (mods : List Module) : List Module :=
  mods.map (fun m =>
    let lessonInModule := m.lessons.any (fun l => l.id == lessonId)
    let updatedLessons := m.lessons.map (fun lesson =>
      if lesson.id = lessonId then
        { lesson with
          progress := max lesson.progress progressPercent
          lastPosition := max (jsOr lesson.lastPosition 0) position
          status :=
            if lesson.status = MStatus.notStarted then MStatus.inProgress else lesson.status }
      else lesson)
    let moduleProgress :=
      if lessonInModule then
        jroundQ ((updatedLessons.map Lesson.progress).sum / (updatedLessons.length : ℚ))
      else m.progress
    { m with lessons := updatedLessons, progress := moduleProgress })

/-- The branded-page handleVideoProgress module transform: the matching lesson
takes the max of its progress and the reported percent, its last position is
overwritten with the reported position, and it moves from not_started to
in_progress; module progress is not recomputed. -/
def videoProgressModulesSlug (lessonId : String) (progressPercent position : ℚ)
    (mods : List Module) : List Module :=
  mods.map (fun m =>
    { m with lessons := m.lessons.map (fun lesson =>
        if lesson.id = lessonId then
          { lesson with
            progress := max lesson.progress progressPercent
            lastPosition := position
            status :=
              if lesson.status = MStatus.notStarted then MStatus.inProgress else lesson.status }
        else lesson) })

/-! ## handleQuizSubmit module transforms

R2-only page source: src/unnamed/part_001, lines 462-491.  Branded page
source: src/src/app/[slug]/page.tsx, lines 1205-1240. -/

/-- The R2-only handleQuizSubmit module transform: the module owning the quiz
records pass or fail and raises bestScore to the max of its old value (0 when
falsy) and the attempt score; a locked module right after the module owning the
quiz is unlocked on a pass, with ALL of its lessons set to not_started. -/
def submitQuizModules (quizId : String) (score : ℚ) (passed : Bool)
    (prev : List Module) : List Module :=
  mapWithIdx (fun idx m =>
    if m.quiz.id = quizId then
      { m with quiz := { m.quiz with
          status := if passed then QStatus.passed else QStatus.failed
          bestScore := max (jsOr m.quiz.bestScore 0) score } }
    else
      match idx with
      | 0 => m
      | i + 1 =>
        match prev[i]? with
        | none => m
        | some prevModule =>
          if prevModule.quiz.id = quizId ∧ passed = true ∧ m.status = MStatus.locked then
            { m with
              status := MStatus.notStarted
              lessons := m.lessons.map (fun l => { l with status := MStatus.notStarted }) }
          else m) prev

/-- The branded-page handleQuizSubmit module transform: same bestScore and
status update on the owning module (which additionally becomes completed when
it passed at 100 percent progress), but the unlocked successor module has ONLY
its first lesson set to not_started. -/
def submitQuizModulesSlug (quizId : String) (score : ℚ) (passed : Bool)
    (prev : List Module) : List Module :=
  mapWithIdx (fun idx m =>
    if m.quiz.id = quizId then
      { m with
        quiz := { m.quiz with
          status := if passed then QStatus.passed else QStatus.failed
          bestScore := max (jsOr m.quiz.bestScore 0) score }
        status := if passed = true ∧ m.progress = 100 then MStatus.completed else m.status }
    else
      match idx with
      | 0 => m
      | i + 1 =>
        match prev[i]? with
        | none => m
        | some prevModule =>
          if prevModule.quiz.id = quizId ∧ passed = true ∧ m.status = MStatus.locked then
            { m with
              status := MStatus.notStarted
              lessons := mapWithIdx (fun li l =>
                if li = 0 then { l with status := MStatus.notStarted } else l) m.lessons }
          else m) prev

/-- A sequence of graded attempts on one quiz, folded through the R2-only
module transform. -/
def submitSequence (quizId : String) (attempts : List (ℚ × Bool))
    (mods : List Module) : List Module :=
  attempts.foldl (fun ms a => submitQuizModules quizId a.1 a.2 ms) mods

/-! ## handlePracticeComplete dashboard updates

R2-only page source: src/unnamed/part_001, lines 602-639.  Branded page
source: src/src/app/[slug]/page.tsx, lines 1286-1319.  The duration-string
field timeSpent and the wall-clock field lastPracticeDate are elided. -/

/-- The Qubits practice dashboard (numeric fields). -/
structure QubitsDashboard where
  totalQuizzes : ℚ
  totalQuestionsAttempted : ℚ
  overallAccuracy : ℚ
  streak : ℚ
deriving DecidableEq, Repr

/-- The R2-only handlePracticeComplete dashboard update: totals and accuracy
are recomputed from the session result counts; the streak field is NOT among
the fields the update rewrites, so it is carried over unchanged by the object
spread. -/
def practiceDashboardR2 (resultsLen correctCount : ℕ) (prev : QubitsDashboard) :
    QubitsDashboard :=
  let newTotalAttempted := prev.totalQuestionsAttempted + (resultsLen : ℚ)
  let prevCorrect := jroundQ (prev.totalQuestionsAttempted * prev.overallAccuracy / 100)
  let newCorrect := prevCorrect + (correctCount : ℚ)
  { prev with
    totalQuizzes := prev.totalQuizzes + 1
    totalQuestionsAttempted := newTotalAttempted
    overallAccuracy :=
      if 0 < newTotalAttempted then jroundQ (newCorrect / newTotalAttempted * 100) else 0 }

/-- The branded-page handlePracticeComplete dashboard update: same totals and
accuracy recomputation, and the streak is incremented when the session score is
at least 70 and reset to 0 otherwise. -/
def practiceDashboardSlug (score : ℚ) (totalQuestions correctCount : ℕ)
    (prev : QubitsDashboard) : QubitsDashboard :=
  let newTotalAttempted := prev.totalQuestionsAttempted + (totalQuestions : ℚ)
  let prevCorrect := jroundQ (prev.overallAccuracy / 100 * prev.totalQuestionsAttempted)
  let newTotalCorrect := prevCorrect + (correctCount : ℚ)
  let newAccuracy :=
    if 0 < newTotalAttempted then jroundQ (newTotalCorrect / newTotalAttempted * 100) else 0
  { prev with
    totalQuizzes := prev.totalQuizzes + 1
    totalQuestionsAttempted := newTotalAttempted
    overallAccuracy := newAccuracy
    streak := if 70 ≤ score then prev.streak + 1 else 0 }

/-! ## POST /api/quiz/submit

Source: src/unnamed/part_004, lines 247-389.  The database is modelled as
lists of rows; the remote queries become list lookups and the insert becomes
an append.  Timestamp columns are elided. -/

/-- One submitted answer from the request body. -/
structure SubmittedAnswer where
  questionId : String
  selectedAnswers : List String
deriving DecidableEq, Repr

/-- A question row as the endpoint selects it. -/
structure ApiQuestion where
  id : String
  correctAnswers : List String
  points : ℚ
deriving DecidableEq, Repr

/-- A quiz row as the endpoint selects it; max_attempts is a nullable column. -/
structure ApiQuiz where
  id : String
  passingScore : ℚ
  maxAttempts : Option ℕ
  showCorrectAnswers : Bool
  questions : List ApiQuestion
deriving DecidableEq, Repr

/-- The correctness test of the endpoint: the set of selected answers has the
same size as the set of correct answers and every selected answer is a correct
one.  JS Set construction removes duplicates, modelled by dedup. -/
def answerIsCorrect (selectedAnswers correctAnswers : List String) : Bool :=
  selectedAnswers.dedup.length == correctAnswers.dedup.length &&
    selectedAnswers.dedup.all (fun x => correctAnswers.dedup.contains x)

/-- One iteration of the grading loop: an answer naming no existing question is
skipped entirely; otherwise its question points are added to the total, to the
earned points as well when correct, and the graded entry is appended. -/
def gradeStep (questions : List ApiQuestion) (acc : ℚ × ℚ × List (String × Bool))
    (a : SubmittedAnswer) : ℚ × ℚ × List (String × Bool) :=
  match questions.find? (fun q => q.id == a.questionId) with
  | none => acc
  | some q =>
    let isCorrect := answerIsCorrect a.selectedAnswers q.correctAnswers
    (acc.1 + q.points,
     (if isCorrect then acc.2.1 + q.points else acc.2.1),
     acc.2.2 ++ [(a.questionId, isCorrect)])

/-- The grading loop of the endpoint: fold over the submitted answers,
producing (totalPoints, earnedPoints, gradedAnswers). -/
def gradeAnswers (questions : List ApiQuestion) (answers : List SubmittedAnswer) :
    ℚ × ℚ × List (String × Bool) :=
  answers.foldl (gradeStep questions) (0, 0, [])

/-- The score the endpoint returns: earnedPoints over totalPoints times 100,
exactly as computed, or 0 when totalPoints is not positive. -/
def scorePercent (questions : List ApiQuestion) (answers : List SubmittedAnswer) : ℚ :=
  let g := gradeAnswers questions answers
  if 0 < g.1 then g.2.1 / g.1 * 100 else 0

/-- An enrollment row. -/
structure Enrollment where
  id : String
  userId : String
deriving DecidableEq, Repr

/-- A quiz_attempts row as the endpoint inserts it. -/
structure AttemptRow where
  userId : String
  enrollmentId : String
  quizId : String
  score : ℚ
  passed : Bool
  totalQuestions : ℕ
  correctAnswers : ℕ
  durationSeconds : ℕ
  attemptNumber : ℕ
deriving DecidableEq, Repr

/-- The persisted state the endpoint touches. -/
structure Db where
  enrollments : List Enrollment
  quizzes : List ApiQuiz
  attempts : List AttemptRow
deriving DecidableEq, Repr

/-- The error responses the endpoint can return. -/
inductive ApiError
  | notFound (msg : String)
  | forbidden (msg : String)
  | maxAttempts
deriving DecidableEq, Repr

/-- The validated request body of POST /api/quiz/submit. -/
structure SubmitBody where
  enrollmentId : String
  quizId : String
  answers : List SubmittedAnswer
  durationSeconds : ℕ
deriving DecidableEq, Repr

/-- The success payload of POST /api/quiz/submit (the attempt id and the
echoed graded answers are elided). -/
structure SubmitResponse where
  score : ℚ
  passed : Bool
  totalQuestions : ℕ
  correctAnswers : ℕ
  attemptNumber : ℕ
  passingScore : ℚ
deriving DecidableEq, Repr

/-- The count query on quiz_attempts filtered by enrollment and quiz. -/
def attemptCount (db : Db) (enrollmentId quizId : String) : ℕ :=
  (db.attempts.filter (fun a => a.enrollmentId == enrollmentId && a.quizId == quizId)).length

/-- POST /api/quiz/submit: look up the enrollment, check ownership, look up the
quiz, enforce max_attempts when that column is truthy, grade, and insert the
attempt row.  Returns the response together with the resulting state. -/
def submitQuizEndpoint (db : Db) (userId : String) (body : SubmitBody) :
    Except ApiError SubmitResponse × Db :=
  match db.enrollments.find? (fun e => e.id == body.enrollmentId) with
  | none => (Except.error (ApiError.notFound "Enrollment not found"), db)
  | some enrollment =>
    if enrollment.userId ≠ userId then
      (Except.error (ApiError.forbidden "You do not have access to this enrollment"), db)
    else
      match db.quizzes.find? (fun q => q.id == body.quizId) with
      | none => (Except.error (ApiError.notFound "Quiz not found"), db)
      | some quiz =>
        let limitReached : Bool :=
          match quiz.maxAttempts with
          | none => false
          | some m => decide (m ≠ 0 ∧ m ≤ attemptCount db body.enrollmentId body.quizId)
        if limitReached then
          (Except.error ApiError.maxAttempts, db)
        else
          let g := gradeAnswers quiz.questions body.answers
          let score := scorePercent quiz.questions body.answers
          let passed : Bool := decide (quiz.passingScore ≤ score)
          let correctCount := (g.2.2.filter (fun e => e.2)).length
          let attemptNumber := attemptCount db body.enrollmentId body.quizId + 1
          let row : AttemptRow :=
            { userId := userId
              enrollmentId := body.enrollmentId
              quizId := body.quizId
              score := score
              passed := passed
              totalQuestions := quiz.questions.length
              correctAnswers := correctCount
              durationSeconds := body.durationSeconds
              attemptNumber := attemptNumber }
          (Except.ok
            { score := score
              passed := passed
              totalQuestions := quiz.questions.length
              correctAnswers := correctCount
              attemptNumber := attemptNumber
              passingScore := quiz.passingScore },
           { db with attempts := db.attempts ++ [row] })

/-! ## General lemmas -/

theorem jsOr_zero (a : ℚ) : jsOr a 0 = a := by
  unfold jsOr
  split <;> simp [*]

/-! ## Claim C3 -/

/-- C3: when there is no saved snapshot, or the saved module count differs
from the freshly loaded module count, loadCourse discards the snapshot and the
resulting initial state has module 0 in_progress with all its lessons
not_started, every other module locked with all its lessons locked, and every
quiz locked. -/
theorem loadCourse_fresh_reset (saved : Option (List Module)) (fresh : List Module)
    (h : ∀ s, saved = some s → s.length ≠ fresh.length) :
    ∀ i m, (loadCourseModules saved fresh)[i]? = some m →
      m.status = (if i = 0 then MStatus.inProgress else MStatus.locked) ∧
      (∀ l ∈ m.lessons, l.status = (if i = 0 then MStatus.notStarted else MStatus.locked)) ∧
      m.quiz.status = QStatus.locked := by
  have hf : loadCourseModules saved fresh = freshStartModules fresh := by
    cases saved with
    | none => rfl
    | some s => simp [loadCourseModules, h s rfl]
  rw [hf]
  intro i m hm
  rw [freshStartModules, getElem?_mapWithIdx] at hm
  cases hfi : fresh[i]? with
  | none => rw [hfi] at hm; simp at hm
  | some fm =>
    rw [hfi] at hm
    simp only [Option.map_some'] at hm
    have hmm := Option.some.inj hm
    subst hmm
    refine ⟨rfl, ?_, rfl⟩
    intro l hl
    simp only [List.mem_map] at hl
    obtain ⟨l0, _, rfl⟩ := hl
    rfl

/-- Fresh course content used to witness loadCourse_fresh_reset. -/
def wM3 : Module :=
  { id := "m1", status := MStatus.completed, progress := 80,
    lessons := [{ id := "a", status := MStatus.completed, progress := 100, lastPosition := 30 }],
    quiz := { id := "q1", status := QStatus.passed, bestScore := 90, passingScore := 70 } }

/-- The module loadCourse produces from wM3 on the fresh-start branch. -/
def wOut3 : Module :=
  { id := "m1", status := MStatus.inProgress, progress := 80,
    lessons := [{ id := "a", status := MStatus.notStarted, progress := 100, lastPosition := 30 }],
    quiz := { id := "q1", status := QStatus.locked, bestScore := 90, passingScore := 70 } }

/-- Witness: loadCourse_fresh_reset applied to a one-module course with no
saved snapshot. -/
theorem loadCourse_fresh_reset_witness :
    wOut3.status = MStatus.inProgress ∧ wOut3.quiz.status = QStatus.locked := by
  have h := loadCourse_fresh_reset none [wM3] (fun s hs => by cases hs) 0 wOut3 (by rfl)
  exact ⟨by simpa using h.1, h.2.2⟩

/-! ## Claim C10 -/

/-- C10: in the snapshot merge a saved progress-bearing field is copied onto
the fresh state only when its value is truthy: a saved lesson progress of 0, a
saved lastPosition of 0, or a saved quiz bestScore of 0 falls back to the
freshly loaded value, while a nonzero saved value wins. -/
theorem merge_truthy_fallback (savedMod freshMod : Module) (k : Nat)
    (savedL freshL : Lesson)
    (hs : savedMod.lessons[k]? = some savedL)
    (hf : freshMod.lessons[k]? = some freshL) :
    ∀ mergedL, (mergeModule savedMod freshMod).lessons[k]? = some mergedL →
      (savedL.progress = 0 → mergedL.progress = freshL.progress) ∧
      (savedL.progress ≠ 0 → mergedL.progress = savedL.progress) ∧
      (savedL.lastPosition = 0 → mergedL.lastPosition = freshL.lastPosition) ∧
      (savedL.lastPosition ≠ 0 → mergedL.lastPosition = savedL.lastPosition) ∧
      (savedMod.quiz.bestScore = 0 →
        (mergeModule savedMod freshMod).quiz.bestScore = freshMod.quiz.bestScore) ∧
      (savedMod.quiz.bestScore ≠ 0 →
        (mergeModule savedMod freshMod).quiz.bestScore = savedMod.quiz.bestScore) := by
  intro mergedL hmerged
  have hlessons : (mergeModule savedMod freshMod).lessons[k]?
      = (freshMod.lessons[k]?).map (fun lesson => mergeLesson savedMod.lessons k lesson) := by
    simp [mergeModule, getElem?_mapWithIdx]
  rw [hlessons, hf, Option.map_some'] at hmerged
  have hmm := Option.some.inj hmerged
  subst hmm
  refine ⟨?_, ?_, ?_, ?_, ?_, ?_⟩ <;>
    simp [mergeLesson, mergeModule, jsOrOpt, jsOr, hs] <;> intro h0 <;> simp [h0]

/-- Saved module used to witness merge_truthy_fallback: all progress-bearing
fields are 0. -/
def wSaved10 : Module :=
  { id := "m1", status := MStatus.inProgress, progress := 0,
    lessons := [{ id := "a", status := MStatus.inProgress, progress := 0, lastPosition := 0 }],
    quiz := { id := "q1", status := QStatus.notStarted, bestScore := 0, passingScore := 70 } }

/-- Fresh module used to witness merge_truthy_fallback. -/
def wFresh10 : Module :=
  { id := "m1", status := MStatus.notStarted, progress := 15,
    lessons := [{ id := "a", status := MStatus.notStarted, progress := 30, lastPosition := 12 }],
    quiz := { id := "q1", status := QStatus.locked, bestScore := 40, passingScore := 70 } }

/-- The lesson the merge produces from wSaved10 and wFresh10. -/
def wMerged10 : Lesson :=
  { id := "a", status := MStatus.inProgress, progress := 30, lastPosition := 12 }

/-- Witness: merge_truthy_fallback applied to wSaved10 and wFresh10, where
every saved numeric field is 0 and hence the fresh values win. -/
theorem merge_truthy_fallback_witness :
    wMerged10.progress = (30 : ℚ) ∧ wMerged10.lastPosition = (12 : ℚ) ∧
    (mergeModule wSaved10 wFresh10).quiz.bestScore = (40 : ℚ) := by
  have h := merge_truthy_fallback wSaved10 wFresh10 0
    { id := "a", status := MStatus.inProgress, progress := 0, lastPosition := 0 }
    { id := "a", status := MStatus.notStarted, progress := 30, lastPosition := 12 }
    (by rfl) (by rfl) wMerged10 (by rfl)
  exact ⟨h.1 rfl, (h.2.2.1 rfl), (h.2.2.2.2.1 rfl)⟩

/-! ## Claim C6 -/

/-- Saved module used in the lastPosition counterexample: position 5. -/
def wSaved6 : Module :=
  { id := "m1", status := MStatus.inProgress, progress := 40,
    lessons := [{ id := "a", status := MStatus.inProgress, progress := 40, lastPosition := 5 }],
    quiz := { id := "q1", status := QStatus.locked, bestScore := 0, passingScore := 70 } }

/-- Fresh module used in the lastPosition counterexample: position 10. -/
def wFresh6 : Module :=
  { id := "m1", status := MStatus.notStarted, progress := 0,
    lessons := [{ id := "a", status := MStatus.notStarted, progress := 0, lastPosition := 10 }],
    quiz := { id := "q1", status := QStatus.locked, bestScore := 0, passingScore := 70 } }

/-- C6 counterexample: merging a saved lastPosition of 5 with a fresh
lastPosition of 10 yields 5, not max(5, 10) = 10, so the merge produces a
lastPosition smaller than the fresh one. -/
theorem lastPosition_merge_not_max :
    ((loadCourseModules (some [wSaved6]) [wFresh6])[0]?.map
        (fun m => m.lessons[0]?.map Lesson.lastPosition)) = some (some 5) ∧
    max (5 : ℚ) 10 = 10 ∧ (5 : ℚ) ≠ 10 := by
  refine ⟨by rfl, by norm_num, by norm_num⟩

/-- C6 amended: the merged lastPosition is the saved one when the saved lesson
exists and its position is nonzero, and the fresh one otherwise; given
non-negative positions it never falls below the saved value, though it can
fall below the fresh value. -/
theorem lastPosition_merge_amended (savedLessons : List Lesson) (k : Nat) (freshL : Lesson)
    (hf : 0 ≤ freshL.lastPosition) :
    (savedLessons[k]? = none →
      (mergeLesson savedLessons k freshL).lastPosition = freshL.lastPosition) ∧
    ∀ savedL, savedLessons[k]? = some savedL →
      (mergeLesson savedLessons k freshL).lastPosition
        = (if savedL.lastPosition = 0 then freshL.lastPosition else savedL.lastPosition) ∧
      savedL.lastPosition ≤ (mergeLesson savedLessons k freshL).lastPosition := by
  constructor
  · intro hnone
    simp [mergeLesson, jsOrOpt, hnone]
  · intro savedL hsome
    have hm : (mergeLesson savedLessons k freshL).lastPosition
        = if savedL.lastPosition = 0 then freshL.lastPosition else savedL.lastPosition := by
      simp [mergeLesson, jsOrOpt, jsOr, hsome]
    refine ⟨hm, ?_⟩
    rw [hm]
    by_cases h0 : savedL.lastPosition = 0
    · rw [if_pos h0, h0]
      exact hf
    · rw [if_neg h0]

/-- Witness: lastPosition_merge_amended at a saved position 7 and fresh
position 9, where the merge keeps 7. -/
theorem lastPosition_merge_amended_witness :
    (7 : ℚ) ≤ (mergeLesson
      [{ id := "x", status := MStatus.inProgress, progress := 20, lastPosition := 7 }] 0
      { id := "x", status := MStatus.notStarted, progress := 0, lastPosition := 9 }).lastPosition := by
  have h := lastPosition_merge_amended
    [{ id := "x", status := MStatus.inProgress, progress := 20, lastPosition := 7 }] 0
    { id := "x", status := MStatus.notStarted, progress := 0, lastPosition := 9 }
    (by norm_num)
  exact (h.2 { id := "x", status := MStatus.inProgress, progress := 20, lastPosition := 7 }
    (by rfl)).2

/-! ## Claim C9 -/

/-- C9: processing a video-progress event for a lesson leaves every lesson
with a different id unchanged and never decreases the progress of the target
lesson, whose new progress is the max of its old progress and the reported
percent, in both page variants. -/
theorem video_progress_frame (lessonId : String) (pp pos : ℚ) (mods : List Module) :
    (∀ (i : Nat) (m : Module), mods[i]? = some m →
      ∀ mo : Module, (videoProgressModules lessonId pp pos mods)[i]? = some mo →
        ∀ (k : Nat) (l : Lesson), m.lessons[k]? = some l →
          ∀ lo : Lesson, mo.lessons[k]? = some lo →
            (l.id ≠ lessonId → lo = l) ∧
            (l.id = lessonId → lo.progress = max l.progress pp)) ∧
    (∀ (i : Nat) (m : Module), mods[i]? = some m →
      ∀ mo : Module, (videoProgressModulesSlug lessonId pp pos mods)[i]? = some mo →
        ∀ (k : Nat) (l : Lesson), m.lessons[k]? = some l →
          ∀ lo : Lesson, mo.lessons[k]? = some lo →
            (l.id ≠ lessonId → lo = l) ∧
            (l.id = lessonId → lo.progress = max l.progress pp)) := by
  constructor
  · intro i m hm mo hmo k l hl lo hlo
    rw [videoProgressModules, List.getElem?_map, hm, Option.map_some'] at hmo
    have hmm := Option.some.inj hmo
    subst hmm
    simp only [List.getElem?_map, hl, Option.map_some'] at hlo
    have hll := Option.some.inj hlo
    subst hll
    constructor
    · intro hne
      simp [hne]
    · intro heq
      simp [heq]
  · intro i m hm mo hmo k l hl lo hlo
    rw [videoProgressModulesSlug, List.getElem?_map, hm, Option.map_some'] at hmo
    have hmm := Option.some.inj hmo
    subst hmm
    simp only [List.getElem?_map, hl, Option.map_some'] at hlo
    have hll := Option.some.inj hlo
    subst hll
    constructor
    · intro hne
      simp [hne]
    · intro heq
      simp [heq]

/-- Module used to witness video_progress_frame. -/
def wM9 : Module :=
  { id := "m1", status := MStatus.inProgress, progress := 20,
    lessons := [{ id := "a", status := MStatus.inProgress, progress := 40, lastPosition := 15 },
                { id := "b", status := MStatus.notStarted, progress := 0, lastPosition := 0 }],
    quiz := { id := "q1", status := QStatus.locked, bestScore := 0, passingScore := 70 } }

/-- Witness: video_progress_frame on a concrete module, reporting 55 percent
on lesson a; lesson a rises to max(40, 55) and lesson b is untouched. -/
theorem video_progress_frame_witness :
    ((videoProgressModules "a" 55 20 [wM9])[0]?.map
        (fun m => m.lessons[1]?) = some (wM9.lessons[1]?)) ∧
    ((videoProgressModules "a" 55 20 [wM9])[0]?.map
        (fun m => m.lessons[0]?.map Lesson.progress) = some (some (max 40 55))) := by
  have h := (video_progress_frame "a" 55 20 [wM9]).1 0 wM9 (by rfl)
  cases hmo : (videoProgressModules "a" 55 20 [wM9])[0]? with
  | none =>
    exfalso
    have hlen : (videoProgressModules "a" 55 20 [wM9]).length = 1 := by
      simp [videoProgressModules]
    rw [List.getElem?_eq_none_iff] at hmo
    omega
  | some mo =>
    have h2 := h mo hmo
    cases hlo0 : mo.lessons[0]? with
    | none =>
      exfalso
      have hlen : mo.lessons.length = 2 := by
        rw [videoProgressModules, List.getElem?_map] at hmo
        simp only [List.getElem?_cons_zero, Option.map_some'] at hmo
        have := Option.some.inj hmo
        subst this
        simp [wM9]
      rw [List.getElem?_eq_none_iff] at hlo0
      omega
    | some lo0 =>
      cases hlo1 : mo.lessons[1]? with
      | none =>
        exfalso
        have hlen : mo.lessons.length = 2 := by
          rw [videoProgressModules, List.getElem?_map] at hmo
          simp only [List.getElem?_cons_zero, Option.map_some'] at hmo
          have := Option.some.inj hmo
          subst this
          simp [wM9]
        rw [List.getElem?_eq_none_iff] at hlo1
        omega
      | some lo1 =>
        have ha := (h2 0 (wM9.lessons.get ⟨0, by simp [wM9]⟩) (by rfl) lo0 hlo0).2 (by rfl)
        have hb := (h2 1 (wM9.lessons.get ⟨1, by simp [wM9]⟩) (by rfl) lo1 hlo1).1 (by decide)
        constructor
        · simp only [Option.map_some']
          rw [hlo1, hb]
          rfl
        · simp only [Option.map_some']
          rw [hlo0, Option.map_some', ha]
          rfl

/-! ## Claim C5 -/

/-- The quiz-owning module after one pass of the R2-only quiz-submit
transform. -/
theorem submitQuizModules_owner_getElem? (quizId : String) (score : ℚ) (passed : Bool)
    (mods : List Module) (j : Nat) (m : Module) (hm : mods[j]? = some m)
    (howner : m.quiz.id = quizId) :
    (submitQuizModules quizId score passed mods)[j]? = some
      { m with quiz := { m.quiz with
          status := if passed then QStatus.passed else QStatus.failed
          bestScore := max (jsOr m.quiz.bestScore 0) score } } := by
  rw [submitQuizModules, getElem?_mapWithIdx, hm, Option.map_some']
  simp [howner]

/-- Sequences of attempts never lower bestScore and keep quiz ownership. -/
theorem submitSequence_bestScore_aux (quizId : String) :
    ∀ (attempts : List (ℚ × Bool)) (mods : List Module) (j : Nat) (m : Module),
      mods[j]? = some m → m.quiz.id = quizId →
      ∀ mo, (submitSequence quizId attempts mods)[j]? = some mo →
        m.quiz.bestScore ≤ mo.quiz.bestScore ∧ mo.quiz.id = quizId := by
  intro attempts
  induction attempts with
  | nil =>
    intro mods j m hm ho mo hmo
    rw [submitSequence, List.foldl_nil] at hmo
    rw [hm] at hmo
    have := Option.some.inj hmo
    subst this
    exact ⟨le_refl _, ho⟩
  | cons a rest ih =>
    intro mods j m hm ho mo hmo
    have hstep := submitQuizModules_owner_getElem? quizId a.1 a.2 mods j m hm ho
    have h1 : submitSequence quizId (a :: rest) mods
        = submitSequence quizId rest (submitQuizModules quizId a.1 a.2 mods) := rfl
    rw [h1] at hmo
    have h2 := ih (submitQuizModules quizId a.1 a.2 mods) j _ hstep ho mo hmo
    refine ⟨?_, h2.2⟩
    calc m.quiz.bestScore ≤ max (jsOr m.quiz.bestScore 0) a.1 := by
          rw [jsOr_zero]
          exact le_max_left _ _
      _ ≤ mo.quiz.bestScore := h2.1

/-- C5: the bestScore of a quiz never decreases across graded attempts: one
attempt replaces it with the max of its previous value and the attempt score,
and any sequence of attempts leaves it at least as high as it started. -/
theorem bestScore_monotone (quizId : String) (mods : List Module) (j : Nat) (m : Module)
    (hm : mods[j]? = some m) (howner : m.quiz.id = quizId) :
    (∀ score passed mo,
      (submitQuizModules quizId score passed mods)[j]? = some mo →
        mo.quiz.bestScore = max m.quiz.bestScore score) ∧
    (∀ attempts mo, (submitSequence quizId attempts mods)[j]? = some mo →
      m.quiz.bestScore ≤ mo.quiz.bestScore) := by
  constructor
  · intro score passed mo hmo
    rw [submitQuizModules_owner_getElem? quizId score passed mods j m hm howner] at hmo
    have := Option.some.inj hmo
    subst this
    simp [jsOr_zero]
  · intro attempts mo hmo
    exact (submitSequence_bestScore_aux quizId attempts mods j m hm howner mo hmo).1

/-- Module used to witness bestScore_monotone: bestScore 60. -/
def wM5 : Module :=
  { id := "m1", status := MStatus.inProgress, progress := 100,
    lessons := [{ id := "a", status := MStatus.completed, progress := 100, lastPosition := 0 }],
    quiz := { id := "q0", status := QStatus.notStarted, bestScore := 60, passingScore := 70 } }

/-- The module wM5 after a passing attempt scoring 80. -/
def wOut5 : Module :=
  { id := "m1", status := MStatus.inProgress, progress := 100,
    lessons := [{ id := "a", status := MStatus.completed, progress := 100, lastPosition := 0 }],
    quiz := { id := "q0", status := QStatus.passed, bestScore := 80, passingScore := 70 } }

/-- Witness: bestScore_monotone on wM5 with an attempt scoring 80. -/
theorem bestScore_monotone_witness :
    wOut5.quiz.bestScore = max (60 : ℚ) 80 := by
  have h := (bestScore_monotone "q0" [wM5] 0 wM5 (by rfl) (by rfl)).1 80 true wOut5 (by decide)
  simpa using h

/-! ## Claim C7 -/

/-- C7 counterexample: the R2-only practice completion leaves the dashboard
streak unchanged; with streak 5 and a session where every answer was wrong
(score 0, below 70) the claim demands streak 0, yet the streak stays 5. -/
theorem practice_streak_untouched_r2 :
    (practiceDashboardR2 4 0
      { totalQuizzes := 2, totalQuestionsAttempted := 10,
        overallAccuracy := 50, streak := 5 }).streak = 5 ∧ (5 : ℚ) ≠ 0 := by
  exact ⟨rfl, by norm_num⟩

/-- C7 amended: the branded page increments the streak on a session score of
at least 70 and resets it to 0 otherwise, while the R2-only page leaves the
dashboard streak unchanged on practice completion. -/
theorem practice_streak_amended :
    (∀ (score : ℚ) (tq cc : ℕ) (prev : QubitsDashboard),
      (practiceDashboardSlug score tq cc prev).streak
        = (if 70 ≤ score then prev.streak + 1 else 0)) ∧
    (∀ (n c : ℕ) (prev : QubitsDashboard),
      (practiceDashboardR2 n c prev).streak = prev.streak) := by
  exact ⟨fun score tq cc prev => rfl, fun n c prev => rfl⟩

/-! ## Claim C2 -/

theorem any_mapWithIdxFrom (f : Nat → α → β) (p : β → Bool) (q : α → Bool)
    (hpq : ∀ n a, p (f n a) = q a) :
    ∀ (n : Nat) (l : List α), (mapWithIdxFrom f n l).any p = l.any q := by
  intro n l
  induction l generalizing n with
  | nil => rfl
  | cons a as ih => simp [mapWithIdxFrom, hpq, ih]

theorem any_mapWithIdx (f : Nat → α → β) (p : β → Bool) (q : α → Bool)
    (hpq : ∀ n a, p (f n a) = q a) (l : List α) :
    (mapWithIdx f l).any p = l.any q :=
  any_mapWithIdxFrom f p q hpq 0 l

/-- A module containing no lesson with the completed id is unchanged by phase
one of handleLessonComplete. -/
theorem completeLessonInModule_not_containing (lessonId : String) (m : Module)
    (h : ∀ l ∈ m.lessons, l.id ≠ lessonId) :
    completeLessonInModule lessonId m = m := by
  rw [completeLessonInModule]
  have hnone : m.lessons.findIdx? (fun l => l.id == lessonId) = none := by
    rw [List.findIdx?_eq_none_iff]
    intro l hl
    simpa using h l hl
  rw [hnone]

/-- Phase one of handleLessonComplete preserves which lesson ids a module
contains. -/
theorem any_id_completeLesson (lessonId lid : String) (m : Module) :
    (completeLessonInModule lessonId m).lessons.any (fun l => l.id == lid)
      = m.lessons.any (fun l => l.id == lid) := by
  rw [completeLessonInModule]
  cases hfind : m.lessons.findIdx? (fun l => l.id == lessonId) with
  | none => rfl
  | some k =>
    refine any_mapWithIdx _ _ _ ?_ m.lessons
    intro n a
    by_cases h1 : a.id = lessonId
    · simp [h1]
    · by_cases h2 : n = k + 1 ∧ a.status = MStatus.locked
      · simp [h1, h2]
      · simp [h1, h2]

/-- The module after the unlock pass of handleLessonComplete, at a successor
index, in terms of the list it runs on. -/
theorem unlockNextAfterLesson_getElem? (lessonId : String) (um : List Module) (i : Nat)
    (p mcur : Module) (hp : um[i]? = some p) (hc : um[i + 1]? = some mcur) :
    (unlockNextAfterLesson lessonId um)[i + 1]? = some
      (if p.lessons.any (fun l => l.id == lessonId) ∧ 70 ≤ p.progress ∧
            mcur.status = MStatus.locked
       then { mcur with
              status := MStatus.notStarted
              lessons := mcur.lessons.map (fun l => { l with status := MStatus.notStarted }) }
       else mcur) := by
  rw [unlockNextAfterLesson, getElem?_mapWithIdx, hc, Option.map_some']
  simp [hp]

/-- The module after the R2-only quiz-submit transform, at a successor index
whose module does not own the submitted quiz. -/
theorem submitQuizModules_succ_getElem? (quizId : String) (score : ℚ) (passed : Bool)
    (mods : List Module) (i : Nat) (p mcur : Module)
    (hp : mods[i]? = some p) (hc : mods[i + 1]? = some mcur)
    (hnotown : mcur.quiz.id ≠ quizId) :
    (submitQuizModules quizId score passed mods)[i + 1]? = some
      (if p.quiz.id = quizId ∧ passed = true ∧ mcur.status = MStatus.locked
       then { mcur with
              status := MStatus.notStarted
              lessons := mcur.lessons.map (fun l => { l with status := MStatus.notStarted }) }
       else mcur) := by
  rw [submitQuizModules, getElem?_mapWithIdx, hc, Option.map_some']
  simp [hnotown, hp]

/-- The module after the branded-page quiz-submit transform, at a successor
index whose module does not own the submitted quiz. -/
theorem submitQuizModulesSlug_succ_getElem? (quizId : String) (score : ℚ) (passed : Bool)
    (mods : List Module) (i : Nat) (p mcur : Module)
    (hp : mods[i]? = some p) (hc : mods[i + 1]? = some mcur)
    (hnotown : mcur.quiz.id ≠ quizId) :
    (submitQuizModulesSlug quizId score passed mods)[i + 1]? = some
      (if p.quiz.id = quizId ∧ passed = true ∧ mcur.status = MStatus.locked
       then { mcur with
              status := MStatus.notStarted
              lessons := mapWithIdx (fun li l =>
                if li = 0 then { l with status := MStatus.notStarted } else l) mcur.lessons }
       else mcur) := by
  rw [submitQuizModulesSlug, getElem?_mapWithIdx, hc, Option.map_some']
  simp [hnotown, hp]

/-- Locked module with two locked lessons, used to refute the all-lessons
unlock in the branded page. -/
def wB2 : Module :=
  { id := "mB", status := MStatus.locked, progress := 0,
    lessons := [{ id := "b1", status := MStatus.locked, progress := 0, lastPosition := 0 },
                { id := "b2", status := MStatus.locked, progress := 0, lastPosition := 0 }],
    quiz := { id := "q1", status := QStatus.locked, bestScore := 0, passingScore := 70 } }

/-- Predecessor module owning the submitted quiz in the C2 counterexample. -/
def wA2 : Module :=
  { id := "mA", status := MStatus.inProgress, progress := 50,
    lessons := [{ id := "a1", status := MStatus.completed, progress := 100, lastPosition := 0 }],
    quiz := { id := "q0", status := QStatus.notStarted, bestScore := 0, passingScore := 70 } }

/-- C2 counterexample: in the branded page, passing the quiz of module 0
unlocks module 1 but sets only its FIRST lesson to not_started; the second
lesson stays locked, contradicting the claim that all lessons of the unlocked
module move from locked to not_started. -/
theorem unlock_not_all_lessons_slug :
    ((submitQuizModulesSlug "q0" 80 true [wA2, wB2])[1]?.map
        (fun m => (m.status, m.lessons.map Lesson.status)))
      = some (MStatus.notStarted, [MStatus.notStarted, MStatus.locked]) ∧
    MStatus.locked ≠ MStatus.notStarted := by
  exact ⟨by decide, by decide⟩

/-- C2 amended: unlocking is event-driven and per-variant.  In the R2-only
page a locked module at index i+1 whose own lessons do not include the
completed lesson is unlocked by handleLessonComplete — status not_started and
ALL lessons not_started — exactly when the completed lesson lies in module i
and module i recomputed progress is at least 70, and it is unlocked by a quiz
submit exactly when module i owns the submitted quiz and the attempt passed;
in all other cases it is returned unchanged, hence stays locked.  In the
branded page the passing-quiz unlock sets only the first lesson of the
unlocked module to not_started and leaves the remaining lessons as they
were. -/
theorem unlock_step_amended :
    (∀ (mods : List Module) (lessonId : String) (i : Nat) (pOrig mcur : Module),
      mods[i]? = some pOrig → mods[i + 1]? = some mcur →
      mcur.status = MStatus.locked → (∀ l ∈ mcur.lessons, l.id ≠ lessonId) →
      ∀ mo : Module, (handleLessonComplete lessonId mods)[i + 1]? = some mo →
        ((mo.status = MStatus.notStarted ∧ ∀ l ∈ mo.lessons, l.status = MStatus.notStarted)
          ↔ (pOrig.lessons.any (fun l => l.id == lessonId) = true ∧
             70 ≤ (completeLessonInModule lessonId pOrig).progress)) ∧
        (¬(pOrig.lessons.any (fun l => l.id == lessonId) = true ∧
             70 ≤ (completeLessonInModule lessonId pOrig).progress) → mo = mcur)) ∧
    (∀ (mods : List Module) (quizId : String) (score : ℚ) (passed : Bool) (i : Nat)
        (p mcur : Module),
      mods[i]? = some p → mods[i + 1]? = some mcur →
      mcur.status = MStatus.locked → mcur.quiz.id ≠ quizId →
      ∀ mo : Module, (submitQuizModules quizId score passed mods)[i + 1]? = some mo →
        ((mo.status = MStatus.notStarted ∧ ∀ l ∈ mo.lessons, l.status = MStatus.notStarted)
          ↔ (p.quiz.id = quizId ∧ passed = true)) ∧
        (¬(p.quiz.id = quizId ∧ passed = true) → mo = mcur)) ∧
    (∀ (mods : List Module) (quizId : String) (score : ℚ) (i : Nat) (p mcur : Module),
      mods[i]? = some p → mods[i + 1]? = some mcur →
      mcur.status = MStatus.locked → mcur.quiz.id ≠ quizId → p.quiz.id = quizId →
      ∀ mo : Module, (submitQuizModulesSlug quizId score true mods)[i + 1]? = some mo →
        mo.status = MStatus.notStarted ∧
        ∀ (k : Nat) (l : Lesson), mcur.lessons[k]? = some l →
          mo.lessons[k]? = some
            (if k = 0 then { l with status := MStatus.notStarted } else l)) := by
  refine ⟨?_, ?_, ?_⟩
  · intro mods lessonId i pOrig mcur hp hc hlock hnl mo hmo
    have hup : (mods.map (completeLessonInModule lessonId))[i]?
        = some (completeLessonInModule lessonId pOrig) := by
      rw [List.getElem?_map, hp, Option.map_some']
    have hucur : (mods.map (completeLessonInModule lessonId))[i + 1]? = some mcur := by
      rw [List.getElem?_map, hc, Option.map_some',
        completeLessonInModule_not_containing lessonId mcur hnl]
    have hkey := unlockNextAfterLesson_getElem? lessonId
      (mods.map (completeLessonInModule lessonId)) i
      (completeLessonInModule lessonId pOrig) mcur hup hucur
    rw [handleLessonComplete] at hmo
    rw [hkey] at hmo
    have hmoEq := Option.some.inj hmo
    rw [any_id_completeLesson] at hmoEq
    by_cases hcond : pOrig.lessons.any (fun l => l.id == lessonId) = true ∧
        70 ≤ (completeLessonInModule lessonId pOrig).progress
    · rw [if_pos ⟨hcond.1, hcond.2, hlock⟩] at hmoEq
      subst hmoEq
      constructor
      · constructor
        · intro _
          exact hcond
        · intro _
          refine ⟨rfl, ?_⟩
          intro l hl
          simp only [List.mem_map] at hl
          obtain ⟨l0, _, rfl⟩ := hl
          rfl
      · intro hneg
        exact absurd hcond hneg
    · have hcond2 : ¬(pOrig.lessons.any (fun l => l.id == lessonId) = true ∧
          70 ≤ (completeLessonInModule lessonId pOrig).progress ∧
          mcur.status = MStatus.locked) := by
        intro hx
        exact hcond ⟨hx.1, hx.2.1⟩
      rw [if_neg hcond2] at hmoEq
      subst hmoEq
      refine ⟨?_, fun _ => rfl⟩
      constructor
      · intro hx
        rw [hlock] at hx
        cases hx.1
      · intro hx
        exact absurd hx hcond
  · intro mods quizId score passed i p mcur hp hc hlock hnotown mo hmo
    have hkey := submitQuizModules_succ_getElem? quizId score passed mods i p mcur hp hc hnotown
    rw [hkey] at hmo
    have hmoEq := Option.some.inj hmo
    by_cases hcond : p.quiz.id = quizId ∧ passed = true
    · rw [if_pos ⟨hcond.1, hcond.2, hlock⟩] at hmoEq
      subst hmoEq
      constructor
      · constructor
        · intro _
          exact hcond
        · intro _
          refine ⟨rfl, ?_⟩
          intro l hl
          simp only [List.mem_map] at hl
          obtain ⟨l0, _, rfl⟩ := hl
          rfl
      · intro hneg
        exact absurd hcond hneg
    · have hcond2 : ¬(p.quiz.id = quizId ∧ passed = true ∧ mcur.status = MStatus.locked) := by
        intro hx
        exact hcond ⟨hx.1, hx.2.1⟩
      rw [if_neg hcond2] at hmoEq
      subst hmoEq
      refine ⟨?_, fun _ => rfl⟩
      constructor
      · intro hx
        rw [hlock] at hx
        cases hx.1
      · intro hx
        exact absurd hx hcond
  · intro mods quizId score i p mcur hp hc hlock hnotown hown mo hmo
    have hkey := submitQuizModulesSlug_succ_getElem? quizId score true mods i p mcur hp hc hnotown
    rw [hkey, if_pos ⟨hown, rfl, hlock⟩] at hmo
    have hmoEq := Option.some.inj hmo
    subst hmoEq
    refine ⟨rfl, ?_⟩
    intro k l hkl
    rw [getElem?_mapWithIdx, hkl, Option.map_some']

/-- The module wB2 as the branded-page unlock leaves it: first lesson
not_started, second lesson still locked. -/
def wB2out : Module :=
  { id := "mB", status := MStatus.notStarted, progress := 0,
    lessons := [{ id := "b1", status := MStatus.notStarted, progress := 0, lastPosition := 0 },
                { id := "b2", status := MStatus.locked, progress := 0, lastPosition := 0 }],
    quiz := { id := "q1", status := QStatus.locked, bestScore := 0, passingScore := 70 } }

/-- Witness: unlock_step_amended, slug part, on the two-module course wA2,
wB2 with a passing submit of quiz q0. -/
theorem unlock_step_amended_witness :
    wB2out.status = MStatus.notStarted := by
  have h := (unlock_step_amended).2.2 [wA2, wB2] "q0" 80 0 wA2 wB2
    (by rfl) (by rfl) (by rfl) (by decide) (by rfl) wB2out (by decide)
  exact h.1

/-! ## Claim C4 -/

/-- Module with one lesson at 0 and one lesson already half watched, used to
refute the rounded-mean claim on the lesson-complete path. -/
def wM4 : Module :=
  { id := "m1", status := MStatus.inProgress, progress := 25,
    lessons := [{ id := "a", status := MStatus.notStarted, progress := 0, lastPosition := 0 },
                { id := "b", status := MStatus.inProgress, progress := 50, lastPosition := 0 }],
    quiz := { id := "q1", status := QStatus.locked, bestScore := 0, passingScore := 70 } }

/-- C4 counterexample: completing lesson a of wM4 leaves lesson progresses at
100 and 50, whose rounded mean is 75, but the lesson-complete handler sets the
module progress to round(100 * completedCount / lessonCount) = 50. -/
theorem module_progress_not_mean :
    ((handleLessonComplete "a" [wM4])[0]?.map (fun m => m.lessons.map Lesson.progress))
      = some [100, 50] ∧
    ((handleLessonComplete "a" [wM4])[0]?.map Module.progress)
      = some (jroundQ (((1 : ℕ) : ℚ) / ((2 : ℕ) : ℚ) * 100)) ∧
    jroundQ (((1 : ℕ) : ℚ) / ((2 : ℕ) : ℚ) * 100) = 50 ∧
    jroundQ ((100 + 50) / 2) = 75 ∧ (50 : ℚ) ≠ 75 := by
  refine ⟨by decide, by rfl, by norm_num [jroundQ, jround], by norm_num [jroundQ, jround],
    by norm_num⟩

/-- C4 amended: after a video-progress update each module containing the
lesson has progress equal to the rounded mean of its updated lessons progress,
and every other module keeps its progress; after a lesson-complete the module
containing the lesson has progress round(100 * completedCount / lessonCount),
the rounded fraction of its lessons now completed, not the mean of their
progress values. -/
theorem module_progress_amended :
    (∀ (lessonId : String) (pp pos : ℚ) (mods : List Module) (i : Nat) (m mo : Module),
      mods[i]? = some m →
      (videoProgressModules lessonId pp pos mods)[i]? = some mo →
        mo.progress = (if m.lessons.any (fun l => l.id == lessonId)
          then jroundQ ((mo.lessons.map Lesson.progress).sum / (mo.lessons.length : ℚ))
          else m.progress)) ∧
    (∀ (lessonId : String) (m : Module),
      m.lessons.any (fun l => l.id == lessonId) = true →
      (completeLessonInModule lessonId m).progress
        = jroundQ ((((completeLessonInModule lessonId m).lessons.filter
              (fun l => l.status = MStatus.completed)).length : ℚ)
            / ((completeLessonInModule lessonId m).lessons.length : ℚ) * 100)) := by
  constructor
  · intro lessonId pp pos mods i m mo hm hmo
    rw [videoProgressModules, List.getElem?_map, hm, Option.map_some'] at hmo
    have hmm := Option.some.inj hmo
    subst hmm
    rfl
  · intro lessonId m hany
    have hsome : (m.lessons.findIdx? (fun l => l.id == lessonId)).isSome = true := by
      rw [List.findIdx?_isSome, hany]
    cases hfind : m.lessons.findIdx? (fun l => l.id == lessonId) with
    | none => rw [hfind] at hsome; cases hsome
    | some k =>
      rw [completeLessonInModule, hfind]

/-- Witness: module_progress_amended, lesson-complete part, on wM4 where
lesson a occurs. -/
theorem module_progress_amended_witness :
    (completeLessonInModule "a" wM4).progress
      = jroundQ ((((completeLessonInModule "a" wM4).lessons.filter
            (fun l => l.status = MStatus.completed)).length : ℚ)
          / ((completeLessonInModule "a" wM4).lessons.length : ℚ) * 100) := by
  exact (module_progress_amended).2 "a" wM4 (by rfl)

/-! ## Claim C1 -/

/-- The graded-answers list the endpoint accumulates: one entry per submitted
answer that names an existing question. -/
def gradedList (questions : List ApiQuestion) (answers : List SubmittedAnswer) :
    List (String × Bool) :=
  answers.filterMap (fun a => (questions.find? (fun q => q.id == a.questionId)).map
    (fun q => (a.questionId, answerIsCorrect a.selectedAnswers q.correctAnswers)))

theorem gradeFold_graded (questions : List ApiQuestion) :
    ∀ (answers : List SubmittedAnswer) (t e : ℚ) (gs : List (String × Bool)),
      (answers.foldl (gradeStep questions) (t, e, gs)).2.2
        = gs ++ gradedList questions answers := by
  intro answers
  induction answers with
  | nil => intro t e gs; simp [gradedList]
  | cons a rest ih =>
    intro t e gs
    rw [List.foldl_cons]
    cases hfind : questions.find? (fun q => q.id == a.questionId) with
    | none => simp [gradeStep, hfind, gradedList, ih, List.filterMap_cons]
    | some q => simp [gradeStep, hfind, gradedList, ih, List.filterMap_cons]

theorem gradeFold_total (questions : List ApiQuestion)
    (hpts : ∀ q ∈ questions, q.points = 1) :
    ∀ answers : List SubmittedAnswer,
      (∀ a ∈ answers, (questions.find? (fun q => q.id == a.questionId)).isSome = true) →
      ∀ (t e : ℚ) (gs : List (String × Bool)),
        (answers.foldl (gradeStep questions) (t, e, gs)).1 = t + answers.length := by
  intro answers
  induction answers with
  | nil => intro _ t e gs; simp
  | cons a rest ih =>
    intro hmatch t e gs
    have hhead := hmatch a (List.mem_cons_self a rest)
    cases hfind : questions.find? (fun q => q.id == a.questionId) with
    | none => rw [hfind] at hhead; simp at hhead
    | some q =>
      have hq1 : q.points = 1 := hpts q (List.mem_of_find?_eq_some hfind)
      rw [List.foldl_cons]
      have hrest := ih (fun x hx => hmatch x (List.mem_cons_of_mem a hx))
      simp only [gradeStep, hfind, hq1]
      rw [hrest]
      simp only [List.length_cons]
      push_cast
      ring

theorem gradeFold_earned (questions : List ApiQuestion)
    (hpts : ∀ q ∈ questions, q.points = 1) :
    ∀ answers : List SubmittedAnswer,
      (∀ a ∈ answers, (questions.find? (fun q => q.id == a.questionId)).isSome = true) →
      ∀ (t e : ℚ) (gs : List (String × Bool)),
        (answers.foldl (gradeStep questions) (t, e, gs)).2.1
          = e + ((gradedList questions answers).filter (fun x => x.2)).length := by
  intro answers
  induction answers with
  | nil => intro _ t e gs; simp [gradedList]
  | cons a rest ih =>
    intro hmatch t e gs
    have hhead := hmatch a (List.mem_cons_self a rest)
    cases hfind : questions.find? (fun q => q.id == a.questionId) with
    | none => rw [hfind] at hhead; simp at hhead
    | some q =>
      have hq1 : q.points = 1 := hpts q (List.mem_of_find?_eq_some hfind)
      rw [List.foldl_cons]
      have hrest := ih (fun x hx => hmatch x (List.mem_cons_of_mem a hx))
      have hcons : gradedList questions (a :: rest)
          = (a.questionId, answerIsCorrect a.selectedAnswers q.correctAnswers)
              :: gradedList questions rest := by
        simp [gradedList, List.filterMap_cons, hfind]
      cases hc : answerIsCorrect a.selectedAnswers q.correctAnswers with
      | true =>
        rw [hc] at hcons
        simp only [gradeStep, hfind, hq1, hc, if_true]
        rw [hrest, hcons]
        have hfil : List.filter (fun x => x.2)
            ((a.questionId, true) :: gradedList questions rest)
            = (a.questionId, true) :: List.filter (fun x => x.2) (gradedList questions rest) :=
          rfl
        rw [hfil, List.length_cons]
        push_cast
        ring
      | false =>
        rw [hc] at hcons
        simp only [gradeStep, hfind, hq1, hc]
        rw [hrest, hcons]
        have hfil : List.filter (fun x => x.2)
            ((a.questionId, false) :: gradedList questions rest)
            = List.filter (fun x => x.2) (gradedList questions rest) := rfl
        rw [hfil]
        simp

/-- C1 amended: the score returned by the quiz-submit endpoint is the exact
unrounded ratio 100 * correctCount / answeredCount — earned points over the
total points of the submitted answers that name existing questions, not over
the question count of the quiz, and with no rounding; with an empty answer
set the score is 0 and a positive passing score then fails the attempt. -/
theorem score_unrounded_ratio (questions : List ApiQuestion) (answers : List SubmittedAnswer)
    (hpts : ∀ q ∈ questions, q.points = 1)
    (hmatch : ∀ a ∈ answers, (questions.find? (fun q => q.id == a.questionId)).isSome = true) :
    (gradeAnswers questions answers).2.2 = gradedList questions answers ∧
    scorePercent questions answers
      = (if answers = [] then 0
         else (((gradedList questions answers).filter (fun x => x.2)).length : ℚ)
            / (answers.length : ℚ) * 100) ∧
    (answers = [] → scorePercent questions answers = 0 ∧
      ∀ ps : ℚ, 0 < ps → decide (ps ≤ scorePercent questions answers) = false) := by
  have hg2 : (gradeAnswers questions answers).2.2 = gradedList questions answers := by
    simpa using gradeFold_graded questions answers 0 0 []
  have ht : (gradeAnswers questions answers).1 = (answers.length : ℚ) := by
    simpa using gradeFold_total questions hpts answers hmatch 0 0 []
  have he : (gradeAnswers questions answers).2.1
      = (((gradedList questions answers).filter (fun x => x.2)).length : ℚ) := by
    simpa using gradeFold_earned questions hpts answers hmatch 0 0 []
  have hscore : scorePercent questions answers
      = (if answers = [] then 0
         else (((gradedList questions answers).filter (fun x => x.2)).length : ℚ)
            / (answers.length : ℚ) * 100) := by
    rw [scorePercent]
    by_cases hnil : answers = []
    · subst hnil
      simp [gradeAnswers]
    · rw [if_neg hnil]
      have hpos : (0 : ℚ) < (gradeAnswers questions answers).1 := by
        rw [ht]
        exact_mod_cast List.length_pos.mpr hnil
      rw [if_pos hpos, ht, he]
  refine ⟨hg2, hscore, ?_⟩
  intro hnil
  have h0 : scorePercent questions answers = 0 := by
    rw [hscore, if_pos hnil]
  refine ⟨h0, ?_⟩
  intro ps hps
  rw [h0]
  exact decide_eq_false (not_le.mpr hps)

/-- The three one-point questions of the C1 counterexample. -/
def wQs1 : List ApiQuestion :=
  [{ id := "r1", correctAnswers := ["x"], points := 1 },
   { id := "r2", correctAnswers := ["x"], points := 1 },
   { id := "r3", correctAnswers := ["x"], points := 1 }]

/-- Three submitted answers, exactly one of them correct. -/
def wAns1 : List SubmittedAnswer :=
  [{ questionId := "r1", selectedAnswers := ["x"] },
   { questionId := "r2", selectedAnswers := ["y"] },
   { questionId := "r3", selectedAnswers := ["y"] }]

/-- C1 counterexample: with 3 questions and 1 correct answer the endpoint
returns 100/3, while round(100 * correctCount / totalQuestions) = 33; the
returned score is not rounded. -/
theorem score_not_rounded :
    scorePercent wQs1 wAns1 = 100 / 3 ∧
    wQs1.length = 3 ∧
    ((gradeAnswers wQs1 wAns1).2.2.filter (fun x => x.2)).length = 1 ∧
    jroundQ (100 * 1 / 3) = 33 ∧
    (100 / 3 : ℚ) ≠ 33 := by
  have hpts1 : ∀ q ∈ wQs1, q.points = 1 := by decide
  have hmatch1 : ∀ a ∈ wAns1, (wQs1.find? (fun q => q.id == a.questionId)).isSome = true := by
    decide
  have hglist : gradedList wQs1 wAns1 = [("r1", true), ("r2", false), ("r3", false)] := by
    decide
  have ht : (gradeAnswers wQs1 wAns1).1 = ((3 : ℕ) : ℚ) := by
    simpa using gradeFold_total wQs1 hpts1 wAns1 hmatch1 0 0 []
  have he : (gradeAnswers wQs1 wAns1).2.1 = ((1 : ℕ) : ℚ) := by
    have h := gradeFold_earned wQs1 hpts1 wAns1 hmatch1 0 0 []
    rw [hglist] at h
    simpa using h
  have hg2 : (gradeAnswers wQs1 wAns1).2.2 = [("r1", true), ("r2", false), ("r3", false)] := by
    have h := gradeFold_graded wQs1 wAns1 0 0 []
    rw [hglist] at h
    simpa using h
  refine ⟨?_, by rfl, ?_, by norm_num [jroundQ, jround], by norm_num⟩
  · rw [scorePercent]
    rw [ht, he]
    norm_num
  · rw [hg2]
    rfl

/-- Witness: score_unrounded_ratio on the concrete quiz wQs1 with answers
wAns1. -/
theorem score_unrounded_ratio_witness :
    scorePercent wQs1 wAns1
      = (if wAns1 = [] then 0
         else (((gradedList wQs1 wAns1).filter (fun x => x.2)).length : ℚ)
            / (wAns1.length : ℚ) * 100) := by
  exact (score_unrounded_ratio wQs1 wAns1 (by decide) (by decide)).2.1

/-! ## Claim C8 -/

/-- C8: the quiz-submit endpoint refuses grading — it returns an error and
leaves the persisted state unchanged, recording no attempt — whenever the
enrollment does not exist, the enrollment belongs to a different user, the
quiz does not exist, or a configured nonzero max_attempts has already been
reached. -/
theorem submit_refusal (db : Db) (userId : String) (body : SubmitBody)
    (h :
      db.enrollments.find? (fun e => e.id == body.enrollmentId) = none ∨
      (∃ e, db.enrollments.find? (fun e2 => e2.id == body.enrollmentId) = some e ∧
        e.userId ≠ userId) ∨
      (∃ e, db.enrollments.find? (fun e2 => e2.id == body.enrollmentId) = some e ∧
        e.userId = userId ∧
        db.quizzes.find? (fun q => q.id == body.quizId) = none) ∨
      (∃ e, db.enrollments.find? (fun e2 => e2.id == body.enrollmentId) = some e ∧
        e.userId = userId ∧
        ∃ q, db.quizzes.find? (fun q2 => q2.id == body.quizId) = some q ∧
          ∃ mAtt, q.maxAttempts = some mAtt ∧ mAtt ≠ 0 ∧
            mAtt ≤ attemptCount db body.enrollmentId body.quizId)) :
    (∃ err, (submitQuizEndpoint db userId body).1 = Except.error err) ∧
    (submitQuizEndpoint db userId body).2 = db := by
  rcases h with h | ⟨e, he, hu⟩ | ⟨e, he, hu, hq⟩ | ⟨e, he, hu, q, hq, mAtt, hma, hm0, hcnt⟩
  · rw [submitQuizEndpoint, h]
    exact ⟨⟨ApiError.notFound "Enrollment not found", rfl⟩, rfl⟩
  · rw [submitQuizEndpoint, he]
    dsimp only
    rw [if_pos hu]
    exact ⟨⟨ApiError.forbidden "You do not have access to this enrollment", rfl⟩, rfl⟩
  · rw [submitQuizEndpoint, he]
    dsimp only
    rw [if_neg (fun hx => hx hu)]
    rw [hq]
    exact ⟨⟨ApiError.notFound "Quiz not found", rfl⟩, rfl⟩
  · rw [submitQuizEndpoint, he]
    dsimp only
    rw [if_neg (fun hx => hx hu)]
    rw [hq]
    dsimp only
    have hlim : decide (mAtt ≠ 0 ∧
        mAtt ≤ attemptCount db body.enrollmentId body.quizId) = true := by
      rw [decide_eq_true_eq]
      exact ⟨hm0, hcnt⟩
    rw [hma]
    dsimp only
    rw [hlim]
    exact ⟨⟨ApiError.maxAttempts, rfl⟩, rfl⟩

/-- Empty persisted state used to witness submit_refusal. -/
def wDb8 : Db :=
  { enrollments := [], quizzes := [], attempts := [] }

/-- Request body used to witness submit_refusal. -/
def wBody8 : SubmitBody :=
  { enrollmentId := "e1", quizId := "qz1", answers := [], durationSeconds := 60 }

/-- Witness: submit_refusal on an empty database, where the enrollment lookup
fails; the state comes back unchanged. -/
theorem submit_refusal_witness :
    (submitQuizEndpoint wDb8 "u1" wBody8).2 = wDb8 := by
  exact (submit_refusal wDb8 "u1" wBody8 (Or.inl (by rfl))).2

end Learnova
